import Mathlib

/-!
# Verification of the display-ambient-light board firmware core

Shallow embedding of the core logic of the `display-ambient-light-board-rs`
firmware: the SK6812 pulse codec, the frame-assembling LED controller, the
UDP protocol parser and the system state machine, together with proofs of
the specified properties.

Machine integers are modelled as `Nat` (byte and `u16` values are only
stored, compared and copied, never overflowed); the bounded `heapless`
vectors are modelled as lists with an explicit capacity check on `push`;
fallible operations return `Except` or pair the mutated state with an
optional error, mirroring `&mut self -> Result<(), BoardError>` receivers.
-/

set_option autoImplicit false

namespace Board

/-! ## Configuration constants (`src/lib.rs`, `config`) -/

/-- `config::MAX_LEDS`: maximum supported LEDs per strip. -/
def MAX_LEDS : Nat := 1000

/-- `config::PROTOCOL_HEADER`: header byte of LED data packets. -/
def PROTOCOL_HEADER : Nat := 0x02

/-- `config::CONNECTION_CHECK_HEADER`: header byte of connection checks. -/
def CONNECTION_CHECK_HEADER : Nat := 0x01

/-- `udp_server::MAX_PACKET_SIZE`: capacity of a packet's data vector. -/
def MAX_PACKET_SIZE : Nat := 4096

/-- `BoardError` (`src/lib.rs`). -/
inductive BoardError where
  | WiFiError
  | UdpError
  | LedError
  | ProtocolError
  | SystemError
  | MdnsError
  deriving DecidableEq, Repr

/-! ## Pulse codec (`src/led_control.rs`) -/

/-- GPIO output level (`esp_hal::gpio::Level`), abstracted. -/
inductive Level where
  | Low
  | High
  deriving DecidableEq, Repr

/-- An RMT pulse code: two (level, duration) halves, as assembled by
`esp_hal::rmt::PulseCode::new(level1, length1, level2, length2)`.
The esp-hal bit packing into a `u32` is abstracted away; only the four
constructor arguments matter to the firmware logic. -/
structure PulseCode where
  level1 : Level
  length1 : Nat
  level2 : Level
  length2 : Nat
  deriving DecidableEq, Repr

/-- `PulseCode::new`. -/
def PulseCode.new (l1 : Level) (d1 : Nat) (l2 : Level) (d2 : Nat) : PulseCode :=
  ⟨l1, d1, l2, d2⟩

/-- `byte_to_pulses` (`led_control.rs:39`): for `i in 0..8`, look at bit
`(byte >> (7 - i)) & 1` and emit the 1-bit pulse `(High 8, Low 5)` or the
0-bit pulse `(High 3, Low 10)`. -/
def byte_to_pulses (byte : Nat) : List PulseCode :=
  (List.range 8).map fun i =>
    if (byte >>> (7 - i)) &&& 1 = 1 then
      PulseCode.new Level.High 8 Level.Low 5
    else
      PulseCode.new Level.High 3 Level.Low 10

/-! ## Colors and the frame-assembling LED controller -/

/-- `RgbwColor` (`led_control.rs`). Channel values are byte values. -/
structure RgbwColor where
  r : Nat
  g : Nat
  b : Nat
  w : Nat
  deriving DecidableEq, Repr

/-- `RgbwColor::new`. -/
def RgbwColor.new (r g b w : Nat) : RgbwColor := ⟨r, g, b, w⟩

/-- `RgbwColor::from_rgb`: RGB with the white channel defaulted to 0. -/
def RgbwColor.from_rgb (r g b : Nat) : RgbwColor := ⟨r, g, b, 0⟩

/-- `FrameState` (`led_control.rs`). -/
inductive FrameState where
  | WaitingForFrame
  | CollectingFrame
  | FrameComplete
  deriving DecidableEq, Repr

/-- The frame-assembly state of `LedController`: the fields touched by
`handle_frame_packet` and `parse_colors`. The hardware handle
(`strip_controller`), the legacy `led_buffer` and the `is_initialized`
flag are not read by the frame-assembly logic and are omitted. -/
structure LedControllerState where
  frame_buffer : List RgbwColor
  frame_state : FrameState
  expected_frame_size : Nat
  received_leds : Nat
  deriving DecidableEq, Repr

/-- `LedController::new` (frame-assembly fields). -/
def LedControllerState.new : LedControllerState :=
  { frame_buffer := []
    frame_state := FrameState.WaitingForFrame
    expected_frame_size := MAX_LEDS
    received_leds := 0 }

/-- `heapless::Vec::push`-style growth loop of `handle_frame_packet`
(`led_control.rs:208`): while the buffer is shorter than `target`, push a
black color; a push fails once the capacity `MAX_LEDS` is reached.
Returns the (possibly partially) grown buffer and whether every push
succeeded — on failure the pushes already performed are kept, exactly as
in the source. -/
def growBuffer (buf : List RgbwColor) (target : Nat) : List RgbwColor × Bool :=
  if buf.length < target then
    if buf.length < MAX_LEDS then
      growBuffer (buf ++ [RgbwColor.new 0 0 0 0]) target
    else
      (buf, false)
  else
    (buf, true)
  termination_by target - buf.length
  decreasing_by simp only [List.length_append, List.length_singleton]; omega

/-- The copy loop of `handle_frame_packet` (`led_control.rs:216`): for
`(i, color)` in `colors.enumerate()`, write `buf[offset + i] := color`
when `offset + i < buf.len()`, starting at index `i`. -/
def writeColorsAux (buf : List RgbwColor) (offset : Nat) :
    List RgbwColor → Nat → List RgbwColor
  | [], _ => buf
  | c :: rest, i =>
      writeColorsAux
        (if offset + i < buf.length then buf.set (offset + i) c else buf)
        offset rest (i + 1)

/-- The copy loop of `handle_frame_packet`, started at index 0. -/
def writeColors (buf : List RgbwColor) (offset : Nat)
    (colors : List RgbwColor) : List RgbwColor :=
  writeColorsAux buf offset colors 0

/-- `LedController::handle_frame_packet` (`led_control.rs:191`), returning
the mutated state together with the optional error of the
`Result<(), BoardError>`:
1. an offset-0 packet resets the buffer and enters `CollectingFrame`;
2. a non-zero offset in `WaitingForFrame` is ignored;
3. the buffer is grown with black up to `offset + colors.len()`
   (capacity overflow returns `LedError`, keeping the partial growth);
4. the colors are copied in at `offset`;
5. `received_leds` becomes the buffer length and the frame is marked
   complete when `received_leds >= 60` or
   `offset + colors.len() >= expected_frame_size`. -/
def handle_frame_packet (s0 : LedControllerState) (offset : Nat)
    (colors : List RgbwColor) : LedControllerState × Option BoardError :=
  let s :=
    if offset = 0 then
      { s0 with frame_buffer := [], frame_state := FrameState.CollectingFrame,
                received_leds := 0 }
    else s0
  if s.frame_state = FrameState.WaitingForFrame ∧ offset ≠ 0 then
    (s, none)
  else
    match growBuffer s.frame_buffer (offset + colors.length) with
    | (buf, false) => ({ s with frame_buffer := buf }, some BoardError.LedError)
    | (buf, true) =>
        let buf := writeColors buf offset colors
        let s := { s with frame_buffer := buf, received_leds := buf.length }
        if 60 ≤ s.received_leds ∨ s.expected_frame_size ≤ offset + colors.length then
          ({ s with frame_state := FrameState.FrameComplete }, none)
        else
          (s, none)

/-- The capped push loop shared by `parse_colors` and `parse_packet`: push
the elements of the second list one by one onto `acc`; a push fails once
`acc` holds `cap` elements, as for `heapless::Vec::push`. -/
def pushAll {α : Type} (cap : Nat) (acc : List α) : List α → Option (List α)
  | [] => some acc
  | a :: rest => if acc.length < cap then pushAll cap (acc ++ [a]) rest else none

/-- `chunks_exact(3)` over byte data (any remainder shorter than 3 is
dropped, exactly as `chunks_exact` does). -/
def chunks3 : List Nat → List (Nat × Nat × Nat)
  | a :: b :: c :: rest => (a, b, c) :: chunks3 rest
  | _ => []

/-- `chunks_exact(4)` over byte data. -/
def chunks4 : List Nat → List (Nat × Nat × Nat × Nat)
  | a :: b :: c :: d :: rest => (a, b, c, d) :: chunks4 rest
  | _ => []

/-- `LedController::parse_colors` (`led_control.rs:256`): a data length
divisible by 3 is read as RGB triples (white defaulted to 0), else a
length divisible by 4 as RGBW quadruples, else `ProtocolError`; pushing
beyond `MAX_LEDS` colors yields `LedError`. -/
def parse_colors (data : List Nat) : Except BoardError (List RgbwColor) :=
  if data.length % 3 = 0 then
    match pushAll MAX_LEDS []
        ((chunks3 data).map fun t => RgbwColor.from_rgb t.1 t.2.1 t.2.2) with
    | some colors => Except.ok colors
    | none => Except.error BoardError.LedError
  else if data.length % 4 = 0 then
    match pushAll MAX_LEDS []
        ((chunks4 data).map fun t => RgbwColor.new t.1 t.2.1 t.2.2.1 t.2.2.2) with
    | some colors => Except.ok colors
    | none => Except.error BoardError.LedError
  else
    Except.error BoardError.ProtocolError

/-! ## UDP protocol parser (`src/udp_server.rs`) -/

/-- `LedPacket` (`udp_server.rs`): 16-bit start offset plus raw bytes. -/
structure LedPacket where
  offset : Nat
  data : List Nat
  deriving DecidableEq, Repr

/-- `UdpServer::is_connection_check`: a single byte equal to `0x01`. -/
def is_connection_check (data : List Nat) : Bool :=
  match data with
  | [b] => b == CONNECTION_CHECK_HEADER
  | _ => false

/-- `UdpServer::parse_packet` (`udp_server.rs:268`): reject connection
checks and packets shorter than 3 bytes or with a wrong header; read the
big-endian `u16` offset from bytes 1–2; copy the remaining bytes into a
vector of capacity `MAX_PACKET_SIZE` (overflow is a `ProtocolError`). -/
def parse_packet (data : List Nat) : Except BoardError LedPacket :=
  if is_connection_check data then
    Except.error BoardError.ProtocolError
  else if data.length < 3 then
    Except.error BoardError.ProtocolError
  else
    match data with
    | b0 :: b1 :: b2 :: rest =>
        if b0 ≠ PROTOCOL_HEADER then
          Except.error BoardError.ProtocolError
        else
          match pushAll MAX_PACKET_SIZE [] rest with
          | some bytes => Except.ok { offset := b1 * 256 + b2, data := bytes }
          | none => Except.error BoardError.ProtocolError
    | _ => Except.error BoardError.ProtocolError

/-! ## LED strip driver pulse stream (`RgbwController::send_rgbw_batch`) -/

/-- The reset/latch pulse appended after a frame (`led_control.rs:528`). -/
def resetPulse : PulseCode := PulseCode.new Level.Low 2000 Level.Low 0

/-- The pulse stream built by `RgbwController::send_rgbw_batch`
(`led_control.rs:513`): for each color, the channel bytes in wire order
Green, Red, Blue, White, each expanded by `byte_to_pulses`; one reset
pulse appended when `add_reset` is set. -/
def send_rgbw_batch (colors : List RgbwColor) (add_reset : Bool) : List PulseCode :=
  (colors.flatMap fun c => [c.g, c.r, c.b, c.w].flatMap byte_to_pulses) ++
    (if add_reset then [resetPulse] else [])

/-! ## System state machine (`src/state_machine.rs`) -/

/-- `SystemState` (`state_machine.rs:10`). -/
inductive SystemState where
  | SystemInit
  | WiFiConnecting
  | DHCPRequesting
  | NetworkReady
  | UDPStarting
  | UDPListening
  | Operational
  | UDPTimeout
  | WiFiError
  | DHCPError
  | UDPError
  | Reconnecting
  deriving DecidableEq, Repr, Fintype

/-- `SystemEvent` (`state_machine.rs:38`). -/
inductive SystemEvent where
  | SystemStarted
  | WiFiConnected
  | WiFiDisconnected
  | DHCPSuccess
  | DHCPFailed
  | UDPServerStarted
  | UDPServerFailed
  | ConnectionCheckReceived
  | UDPTimeout
  | LEDDataReceived
  | WiFiConnectionFailed
  | RecoveryRequested
  | StateTimeout
  deriving DecidableEq, Repr, Fintype

/-- `StateTransition` (`state_machine.rs:65`). -/
inductive StateTransition where
  | Stay
  | Transition (s : SystemState)
  | TransitionWithReset (s : SystemState)
  deriving DecidableEq, Repr

/-- Modelled from the spec: the `LedStatus` enum lives in a part of
`led_control.rs` missing from the given sources (the file only re-exports
it); the spec describes it as "a small enumerated LED status value (one
entry per meaningful System State)" with distinct variants, and
`state_machine.rs` names exactly these eleven variants. -/
inductive LedStatus where
  | Starting
  | WiFiConnecting
  | DHCPRequesting
  | NetworkReady
  | UDPServerBinding
  | UDPServerListening
  | Operational
  | ServiceError
  | WiFiError
  | NetworkError
  | Reconnecting
  deriving DecidableEq, Repr, Fintype

/-- `ErrorContext` (`state_machine.rs:105`). -/
structure ErrorContext where
  error_state : SystemState
  error_count : Nat
  last_good_state : SystemState
  deriving DecidableEq, Repr

/-- `SystemStateMachine` (`state_machine.rs:112`). -/
structure SystemStateMachine where
  current_state : SystemState
  previous_state : Option SystemState
  state_entry_time : Nat
  retry_count : Nat
  error_context : Option ErrorContext
  max_retries : Nat
  mdns_started : Bool
  deriving DecidableEq, Repr

/-- `SystemStateMachine::new` (`state_machine.rs:124`). -/
def SystemStateMachine.new : SystemStateMachine :=
  { current_state := SystemState.SystemInit
    previous_state := none
    state_entry_time := 0
    retry_count := 0
    error_context := none
    max_retries := 3
    mdns_started := false }

/-- `SystemStateMachine::get_state_transition` (`state_machine.rs:296`):
the transition table, arm for arm in source order (Lean `match` shares
Rust's first-match semantics, so the catch-all `WiFiDisconnected` arm
sits exactly where it does in the source). -/
def SystemStateMachine.get_state_transition (m : SystemStateMachine)
    (current_state : SystemState) (event : SystemEvent) : StateTransition :=
  match current_state, event with
  | SystemState.SystemInit, SystemEvent.SystemStarted =>
      StateTransition.Transition SystemState.WiFiConnecting
  | SystemState.WiFiConnecting, SystemEvent.WiFiConnected =>
      StateTransition.TransitionWithReset SystemState.DHCPRequesting
  | SystemState.WiFiConnecting, SystemEvent.WiFiConnectionFailed =>
      if m.retry_count < m.max_retries then StateTransition.Stay
      else StateTransition.Transition SystemState.WiFiError
  | SystemState.WiFiConnecting, SystemEvent.StateTimeout =>
      StateTransition.Transition SystemState.WiFiError
  | SystemState.DHCPRequesting, SystemEvent.DHCPSuccess =>
      StateTransition.TransitionWithReset SystemState.NetworkReady
  | SystemState.DHCPRequesting, SystemEvent.DHCPFailed =>
      if m.retry_count < m.max_retries then StateTransition.Stay
      else StateTransition.Transition SystemState.DHCPError
  | SystemState.DHCPRequesting, SystemEvent.StateTimeout =>
      StateTransition.Transition SystemState.DHCPError
  | SystemState.NetworkReady, SystemEvent.UDPServerStarted =>
      StateTransition.Transition SystemState.UDPStarting
  | SystemState.UDPStarting, SystemEvent.UDPServerStarted =>
      StateTransition.TransitionWithReset SystemState.UDPListening
  | SystemState.UDPStarting, SystemEvent.UDPServerFailed =>
      StateTransition.Transition SystemState.UDPError
  | SystemState.UDPListening, SystemEvent.ConnectionCheckReceived =>
      StateTransition.TransitionWithReset SystemState.Operational
  | SystemState.UDPListening, SystemEvent.UDPTimeout =>
      StateTransition.Transition SystemState.UDPTimeout
  | SystemState.Operational, SystemEvent.LEDDataReceived =>
      StateTransition.Stay
  | SystemState.Operational, SystemEvent.ConnectionCheckReceived =>
      StateTransition.Stay
  | SystemState.Operational, SystemEvent.UDPTimeout =>
      StateTransition.Transition SystemState.UDPTimeout
  | SystemState.UDPTimeout, SystemEvent.ConnectionCheckReceived =>
      StateTransition.TransitionWithReset SystemState.Operational
  | _, SystemEvent.WiFiDisconnected =>
      StateTransition.Transition SystemState.Reconnecting
  | SystemState.Reconnecting, SystemEvent.WiFiConnected =>
      StateTransition.Transition SystemState.DHCPRequesting
  | SystemState.WiFiError, SystemEvent.RecoveryRequested =>
      StateTransition.Transition SystemState.WiFiConnecting
  | SystemState.DHCPError, SystemEvent.RecoveryRequested =>
      StateTransition.Transition SystemState.DHCPRequesting
  | SystemState.UDPError, SystemEvent.RecoveryRequested =>
      StateTransition.Transition SystemState.UDPStarting
  | SystemState.UDPTimeout, SystemEvent.RecoveryRequested =>
      StateTransition.Transition SystemState.UDPStarting
  | _, _ => StateTransition.Stay

/-- `SystemStateMachine::transition_to_state` (`state_machine.rs:274`):
do nothing when the state is unchanged; entering `UDPListening` clears
the mDNS flag; record the previous state and reset the entry time. -/
def SystemStateMachine.transition_to_state (m : SystemStateMachine)
    (new_state : SystemState) : SystemStateMachine :=
  if new_state ≠ m.current_state then
    let m1 :=
      if new_state = SystemState.UDPListening then { m with mdns_started := false }
      else m
    { m1 with previous_state := some m1.current_state,
              current_state := new_state,
              state_entry_time := 0 }
  else m

/-- `SystemStateMachine::handle_event` (`state_machine.rs:170`), the
`&mut self` receiver made explicit: returns the updated machine and the
computed transition. -/
def SystemStateMachine.handle_event (m : SystemStateMachine)
    (event : SystemEvent) : SystemStateMachine × StateTransition :=
  let transition := m.get_state_transition m.current_state event
  match transition with
  | StateTransition.Transition new_state =>
      (m.transition_to_state new_state, transition)
  | StateTransition.TransitionWithReset new_state =>
      (({ m with retry_count := 0 }).transition_to_state new_state, transition)
  | StateTransition.Stay => (m, transition)

/-- `SystemStateMachine::get_led_status` (`state_machine.rs:152`). -/
def SystemStateMachine.get_led_status (m : SystemStateMachine) : LedStatus :=
  match m.current_state with
  | SystemState.SystemInit => LedStatus.Starting
  | SystemState.WiFiConnecting => LedStatus.WiFiConnecting
  | SystemState.DHCPRequesting => LedStatus.DHCPRequesting
  | SystemState.NetworkReady => LedStatus.NetworkReady
  | SystemState.UDPStarting => LedStatus.UDPServerBinding
  | SystemState.UDPListening => LedStatus.UDPServerListening
  | SystemState.Operational => LedStatus.Operational
  | SystemState.UDPTimeout => LedStatus.ServiceError
  | SystemState.WiFiError => LedStatus.WiFiError
  | SystemState.DHCPError => LedStatus.NetworkError
  | SystemState.UDPError => LedStatus.ServiceError
  | SystemState.Reconnecting => LedStatus.Reconnecting

/-- `SystemStateMachine::is_error_state` (`state_machine.rs:439`). -/
def SystemStateMachine.is_error_state (m : SystemStateMachine) : Bool :=
  match m.current_state with
  | SystemState.WiFiError => true
  | SystemState.DHCPError => true
  | SystemState.UDPError => true
  | SystemState.UDPTimeout => true
  | _ => false

/-! ## Basic lemmas about the embedded operations -/

/-- The copy loop never changes the buffer length. -/
theorem writeColorsAux_length (colors : List RgbwColor) :
    ∀ (buf : List RgbwColor) (offset i : Nat),
      (writeColorsAux buf offset colors i).length = buf.length := by
  induction colors with
  | nil => intro buf offset i; rfl
  | cons c rest ih =>
      intro buf offset i
      rw [writeColorsAux, ih]
      split <;> simp

/-- The copy loop never changes the buffer length. -/
theorem writeColors_length (buf : List RgbwColor) (offset : Nat)
    (colors : List RgbwColor) :
    (writeColors buf offset colors).length = buf.length :=
  writeColorsAux_length colors buf offset 0

/-- Closed form of the growth loop: when the requested length fits the
capacity, the buffer is padded with black up to it; otherwise the pushes
performed before the failing one remain, so the buffer is padded up to
the capacity and `false` is reported. -/
theorem growBuffer_eq (target : Nat) (buf : List RgbwColor) :
    growBuffer buf target =
      if target ≤ buf.length then (buf, true)
      else if target ≤ MAX_LEDS then
        (buf ++ List.replicate (target - buf.length) (RgbwColor.new 0 0 0 0), true)
      else
        (buf ++ List.replicate (MAX_LEDS - buf.length) (RgbwColor.new 0 0 0 0), false) := by
  rw [growBuffer]
  by_cases h1 : buf.length < target
  · by_cases h2 : buf.length < MAX_LEDS
    · rw [if_pos h1, if_pos h2, growBuffer_eq target (buf ++ [RgbwColor.new 0 0 0 0])]
      have hlen : (buf ++ [RgbwColor.new 0 0 0 0]).length = buf.length + 1 := by simp
      rw [hlen]
      have hrep : ∀ k, buf.length < k →
          buf ++ [RgbwColor.new 0 0 0 0] ++
              List.replicate (k - (buf.length + 1)) (RgbwColor.new 0 0 0 0) =
            buf ++ List.replicate (k - buf.length) (RgbwColor.new 0 0 0 0) := by
        intro k hk
        rw [List.append_assoc, List.singleton_append, ← List.replicate_succ]
        congr 2
        omega
      split_ifs
      all_goals first
        | omega
        | rw [show target - buf.length = 1 by omega, List.replicate_one]
        | rw [hrep target h1]
        | rw [hrep MAX_LEDS h2]
    · rw [if_pos h1, if_neg h2, if_neg (by omega), if_neg (by omega)]
      have : MAX_LEDS - buf.length = 0 := by omega
      simp [this]
  · rw [if_neg h1, if_pos (by omega)]
  termination_by target - buf.length
  decreasing_by simp only [List.length_append, List.length_singleton]; omega

/-- Pushing a list that fits under the capacity succeeds and appends. -/
theorem pushAll_ok {α : Type} (cap : Nat) :
    ∀ (cs acc : List α), acc.length + cs.length ≤ cap →
      pushAll cap acc cs = some (acc ++ cs) := by
  intro cs
  induction cs with
  | nil => intro acc h; simp [pushAll]
  | cons a rest ih =>
      intro acc h
      simp only [List.length_cons] at h
      rw [pushAll, if_pos (by omega), ih (acc ++ [a]) (by simp; omega)]
      simp

/-- Pushing a non-empty list that would exceed the capacity fails. -/
theorem pushAll_none {α : Type} (cap : Nat) :
    ∀ (cs acc : List α), cs ≠ [] → cap < acc.length + cs.length →
      pushAll cap acc cs = none := by
  intro cs
  induction cs with
  | nil => intro acc h; exact absurd rfl h
  | cons a rest ih =>
      intro acc _ hcap
      simp only [List.length_cons] at hcap
      rw [pushAll]
      by_cases hlt : acc.length < cap
      · have hrest : rest ≠ [] := by
          intro hr
          rw [hr] at hcap
          simp at hcap
          omega
        rw [if_pos hlt, ih (acc ++ [a]) hrest (by simp; omega)]
      · rw [if_neg hlt]

/-- `chunks_exact(3)` produces `len / 3` chunks. -/
theorem chunks3_length : ∀ l : List Nat, (chunks3 l).length = l.length / 3
  | [] => by simp [chunks3]
  | [_] => by simp [chunks3]
  | [_, _] => by simp [chunks3]
  | _ :: _ :: _ :: rest => by
      simp only [chunks3, List.length_cons, chunks3_length rest]
      omega

/-- `chunks_exact(4)` produces `len / 4` chunks. -/
theorem chunks4_length : ∀ l : List Nat, (chunks4 l).length = l.length / 4
  | [] => by simp [chunks4]
  | [_] => by simp [chunks4]
  | [_, _] => by simp [chunks4]
  | [_, _, _] => by simp [chunks4]
  | _ :: _ :: _ :: _ :: rest => by
      simp only [chunks4, List.length_cons, chunks4_length rest]
      omega

/-- Splitting a flattened list of triples recovers the triples. -/
theorem chunks3_flatMap :
    ∀ ps : List (Nat × Nat × Nat),
      chunks3 (ps.flatMap fun t => [t.1, t.2.1, t.2.2]) = ps
  | [] => rfl
  | (a, b, c) :: rest => by
      show (a, b, c) :: chunks3 (rest.flatMap fun t => [t.1, t.2.1, t.2.2]) =
        (a, b, c) :: rest
      rw [chunks3_flatMap rest]

/-- Splitting a flattened list of RGBW quadruples and rebuilding the
colors recovers the original colors. -/
theorem chunks4_flatMap_colors :
    ∀ cs : List RgbwColor,
      (chunks4 (cs.flatMap fun c => [c.r, c.g, c.b, c.w])).map
          (fun t => RgbwColor.new t.1 t.2.1 t.2.2.1 t.2.2.2) = cs
  | [] => rfl
  | ⟨r, g, b, w⟩ :: rest => by
      show RgbwColor.new r g b w ::
          (chunks4 (rest.flatMap fun c => [c.r, c.g, c.b, c.w])).map
            (fun t => RgbwColor.new t.1 t.2.1 t.2.2.1 t.2.2.2) =
        RgbwColor.new r g b w :: rest
      rw [chunks4_flatMap_colors rest]

/-- Length of a flattened list of triples. -/
theorem flatMap3_length (ps : List (Nat × Nat × Nat)) :
    (ps.flatMap fun t => [t.1, t.2.1, t.2.2]).length = 3 * ps.length := by
  induction ps with
  | nil => rfl
  | cons p rest ih =>
      simp only [List.flatMap_cons, List.length_append, List.length_cons, ih]
      simp
      omega

/-- Length of a flattened list of RGBW quadruples. -/
theorem flatMap4_length (cs : List RgbwColor) :
    (cs.flatMap fun c => [c.r, c.g, c.b, c.w]).length = 4 * cs.length := by
  induction cs with
  | nil => rfl
  | cons c rest ih =>
      simp only [List.flatMap_cons, List.length_append, List.length_cons, ih]
      simp
      omega

/-- Closed form of `handle_frame_packet` in the non-ignored case (offset
zero, or not waiting for a frame start): the buffer left by the reset
step is padded with black up to `offset + colors.len()` and written when
that fits the capacity, marking the frame complete at the dual
threshold; otherwise the error is reported with the buffer padded only
up to the capacity. -/
theorem handle_frame_packet_eq (s : LedControllerState) (offset : Nat)
    (cs : List RgbwColor)
    (hframe : offset = 0 ∨ s.frame_state ≠ FrameState.WaitingForFrame) :
    handle_frame_packet s offset cs =
      (let base := if offset = 0 then [] else s.frame_buffer
       let fs0 := if offset = 0 then FrameState.CollectingFrame else s.frame_state
       let rc0 := if offset = 0 then 0 else s.received_leds
       if offset + cs.length ≤ base.length ∨ offset + cs.length ≤ MAX_LEDS then
         (let buf := writeColors
             (base ++ List.replicate (offset + cs.length - base.length)
               (RgbwColor.new 0 0 0 0)) offset cs
          ({ frame_buffer := buf
             frame_state :=
               if 60 ≤ buf.length ∨ s.expected_frame_size ≤ offset + cs.length
               then FrameState.FrameComplete else fs0
             expected_frame_size := s.expected_frame_size
             received_leds := buf.length }, none))
       else
         ({ frame_buffer :=
              base ++ List.replicate (MAX_LEDS - base.length) (RgbwColor.new 0 0 0 0)
            frame_state := fs0
            expected_frame_size := s.expected_frame_size
            received_leds := rc0 }, some BoardError.LedError)) := by
  by_cases h0 : offset = 0
  · subst h0
    simp [handle_frame_packet, growBuffer_eq]
    by_cases hnil : cs = []
    · subst hnil
      simp
      try split_ifs <;> rfl
    · by_cases hcap : cs.length ≤ MAX_LEDS
      · simp [hnil, hcap]
        try split_ifs <;> rfl
      · simp [hnil, hcap]
  · rcases hframe with h | hW
    · exact absurd h h0
    simp only [handle_frame_packet, growBuffer_eq, if_neg h0]
    rw [if_neg (by simp [hW, h0])]
    by_cases hA : offset + cs.length ≤ s.frame_buffer.length
    · rw [if_pos hA, if_pos (Or.inl hA)]
      rw [show offset + cs.length - s.frame_buffer.length = 0 from by omega]
      simp
      try split_ifs <;> rfl
    · by_cases hB : offset + cs.length ≤ MAX_LEDS
      · rw [if_neg hA, if_pos hB, if_pos (Or.inr hB)]
        simp
        try split_ifs <;> rfl
      · rw [if_neg hA, if_neg hB, if_neg (by tauto)]

/-- A non-zero-offset write while waiting for a frame start is ignored:
the state is returned unchanged without an error. -/
theorem handle_frame_packet_ignored (s : LedControllerState) (offset : Nat)
    (cs : List RgbwColor) (hw : s.frame_state = FrameState.WaitingForFrame)
    (ho : offset ≠ 0) :
    handle_frame_packet s offset cs = (s, none) := by
  simp [handle_frame_packet, ho, hw]

/-- Closed form of an offset-0 write: the buffer is reset and rebuilt
from the packet alone; the capacity error fires only for packets larger
than `MAX_LEDS`. -/
theorem handle_frame_packet_zero (s : LedControllerState) (cs : List RgbwColor) :
    handle_frame_packet s 0 cs =
      (if cs.length ≤ MAX_LEDS then
        ({ frame_buffer :=
             writeColors (List.replicate cs.length (RgbwColor.new 0 0 0 0)) 0 cs
           frame_state :=
             if 60 ≤ cs.length ∨ s.expected_frame_size ≤ cs.length
             then FrameState.FrameComplete else FrameState.CollectingFrame
           expected_frame_size := s.expected_frame_size
           received_leds := cs.length }, none)
       else
        ({ frame_buffer := List.replicate MAX_LEDS (RgbwColor.new 0 0 0 0)
           frame_state := FrameState.CollectingFrame
           expected_frame_size := s.expected_frame_size
           received_leds := 0 }, some BoardError.LedError)) := by
  rw [handle_frame_packet_eq s 0 cs (Or.inl rfl)]
  dsimp only
  simp only [if_true, List.length_nil, Nat.zero_add, Nat.sub_zero, List.nil_append,
    writeColors_length, List.length_replicate]
  simp only [show (cs.length ≤ 0 ∨ cs.length ≤ MAX_LEDS) ↔ cs.length ≤ MAX_LEDS
    from by omega]


/-- Closed form of a non-zero-offset write from `CollectingFrame`: the
buffer is kept (and padded when the write reaches past its end), the
received count becomes the new buffer length, and the capacity error
fires when `offset + colors.len()` exceeds `MAX_LEDS`. -/
theorem handle_frame_packet_nonzero (s : LedControllerState) (offset : Nat)
    (cs : List RgbwColor) (h0 : offset ≠ 0)
    (hc : s.frame_state = FrameState.CollectingFrame) :
    handle_frame_packet s offset cs =
      (if offset + cs.length ≤ s.frame_buffer.length then
        ({ frame_buffer := writeColors s.frame_buffer offset cs
           frame_state :=
             if 60 ≤ s.frame_buffer.length ∨
                 s.expected_frame_size ≤ offset + cs.length
             then FrameState.FrameComplete else FrameState.CollectingFrame
           expected_frame_size := s.expected_frame_size
           received_leds := s.frame_buffer.length }, none)
       else if offset + cs.length ≤ MAX_LEDS then
        ({ frame_buffer :=
             writeColors
               (s.frame_buffer ++
                 List.replicate (offset + cs.length - s.frame_buffer.length)
                   (RgbwColor.new 0 0 0 0)) offset cs
           frame_state :=
             if 60 ≤ offset + cs.length ∨
                 s.expected_frame_size ≤ offset + cs.length
             then FrameState.FrameComplete else FrameState.CollectingFrame
           expected_frame_size := s.expected_frame_size
           received_leds := offset + cs.length }, none)
       else
        ({ frame_buffer :=
             s.frame_buffer ++
               List.replicate (MAX_LEDS - s.frame_buffer.length)
                 (RgbwColor.new 0 0 0 0)
           frame_state := FrameState.CollectingFrame
           expected_frame_size := s.expected_frame_size
           received_leds := s.received_leds }, some BoardError.LedError)) := by
  rw [handle_frame_packet_eq s offset cs (Or.inr (by simp [hc]))]
  dsimp only
  simp only [if_neg h0, writeColors_length, List.length_append, List.length_replicate, hc]
  by_cases hA : offset + cs.length ≤ s.frame_buffer.length
  · rw [if_pos (Or.inl hA), if_pos hA]
    rw [show offset + cs.length - s.frame_buffer.length = 0 from by omega]
    simp only [List.replicate_zero, List.append_nil]
    rw [show s.frame_buffer.length + 0 = s.frame_buffer.length from by omega]
  · by_cases hB : offset + cs.length ≤ MAX_LEDS
    · rw [if_pos (Or.inr hB), if_neg hA, if_pos hB]
      rw [show s.frame_buffer.length + (offset + cs.length - s.frame_buffer.length)
        = offset + cs.length from by omega]
    · rw [if_neg (by tauto), if_neg hA, if_neg hB]

/-- A well-formed pixel packet parses to its offset and payload. -/
theorem parse_packet_header (b1 b2 : Nat) (rest : List Nat)
    (hlen : rest.length ≤ MAX_PACKET_SIZE) :
    parse_packet (PROTOCOL_HEADER :: b1 :: b2 :: rest) =
      Except.ok { offset := b1 * 256 + b2, data := rest } := by
  rw [parse_packet]
  rw [show is_connection_check (PROTOCOL_HEADER :: b1 :: b2 :: rest) = false from rfl]
  rw [if_neg (by simp)]
  rw [if_neg (by simp)]
  rw [if_neg (by simp)]
  rw [pushAll_ok MAX_PACKET_SIZE rest [] (by simpa using hlen)]
  simp

/-- Modelled from the spec: the sender-side serializer for RGB pixel
updates. The repository contains only the receiving parser, so the wire
format is taken from the spec (§6): header byte `0x02`, 16-bit
big-endian offset (`offset / 256`, `offset % 256`), then 3 bytes
R, G, B per color. -/
def serializeRgb (offset : Nat) (pixels : List (Nat × Nat × Nat)) : List Nat :=
  PROTOCOL_HEADER :: offset / 256 :: offset % 256 ::
    (pixels.flatMap fun t => [t.1, t.2.1, t.2.2])

/-- Modelled from the spec: the sender-side serializer for RGBW pixel
updates (4 bytes R, G, B, W per color after the same header). -/
def serializeRgbw (offset : Nat) (colors : List RgbwColor) : List Nat :=
  PROTOCOL_HEADER :: offset / 256 :: offset % 256 ::
    (colors.flatMap fun c => [c.r, c.g, c.b, c.w])

/-! ## Claim theorems -/

/-- C1. The claim says three consecutive `WiFiConnectionFailed` events,
starting from `WiFiConnecting` with `retry_count = 0` and
`max_retries = 3`, land in `WiFiError` on the third. Evaluating the code
refutes this: `handle_event` never increments `retry_count`, so each of
the three events finds `retry_count = 0 < 3` and returns `Stay`; the
machine is still in `WiFiConnecting` (not `WiFiError`) after the third
event, with `retry_count` still 0. -/
theorem c1_wifi_retry_exhaustion_evaluation :
    ((SystemStateMachine.new.handle_event SystemEvent.SystemStarted).1.current_state
        = SystemState.WiFiConnecting ∧
      (SystemStateMachine.new.handle_event SystemEvent.SystemStarted).1.retry_count = 0 ∧
      (SystemStateMachine.new.handle_event SystemEvent.SystemStarted).1.max_retries = 3) ∧
    ((((SystemStateMachine.new.handle_event SystemEvent.SystemStarted).1.handle_event
          SystemEvent.WiFiConnectionFailed).1.handle_event
          SystemEvent.WiFiConnectionFailed).1.handle_event
          SystemEvent.WiFiConnectionFailed).1.current_state
        = SystemState.WiFiConnecting ∧
    ((((SystemStateMachine.new.handle_event SystemEvent.SystemStarted).1.handle_event
          SystemEvent.WiFiConnectionFailed).1.handle_event
          SystemEvent.WiFiConnectionFailed).1.handle_event
          SystemEvent.WiFiConnectionFailed).1.current_state
        ≠ SystemState.WiFiError ∧
    ((((SystemStateMachine.new.handle_event SystemEvent.SystemStarted).1.handle_event
          SystemEvent.WiFiConnectionFailed).1.handle_event
          SystemEvent.WiFiConnectionFailed).1.handle_event
          SystemEvent.WiFiConnectionFailed).2 = StateTransition.Stay := by
  decide

/-- C5 counterexample. The claim says every pair of distinct error
states among `WiFiError`, `DHCPError`, `UDPError`, `UDPTimeout` is
mapped to distinct LED status values. Refuted: `UDPError` and
`UDPTimeout` are distinct error states, but `get_led_status` maps both
to `LedStatus.ServiceError`. -/
theorem c5_distinct_status_counterexample :
    ({ SystemStateMachine.new with
        current_state := SystemState.UDPError }).is_error_state = true ∧
    ({ SystemStateMachine.new with
        current_state := SystemState.UDPTimeout }).is_error_state = true ∧
    SystemState.UDPError ≠ SystemState.UDPTimeout ∧
    ({ SystemStateMachine.new with
        current_state := SystemState.UDPError }).get_led_status =
      ({ SystemStateMachine.new with
          current_state := SystemState.UDPTimeout }).get_led_status := by
  decide

/-- C5 amended. Among the four error states, `get_led_status` is
injective except on the pair `{UDPError, UDPTimeout}`, which share
`LedStatus.ServiceError`: two distinct error states get the same LED
status exactly when they are that pair. -/
theorem c5_distinct_status_amended :
    ∀ s1 s2 : SystemState,
      ({ SystemStateMachine.new with current_state := s1 }).is_error_state = true →
      ({ SystemStateMachine.new with current_state := s2 }).is_error_state = true →
      s1 ≠ s2 →
      (({ SystemStateMachine.new with current_state := s1 }).get_led_status =
          ({ SystemStateMachine.new with current_state := s2 }).get_led_status ↔
        ((s1 = SystemState.UDPError ∧ s2 = SystemState.UDPTimeout) ∨
          (s1 = SystemState.UDPTimeout ∧ s2 = SystemState.UDPError))) := by
  decide

/-- C5 witness: the amended theorem applied to the concrete error states
`WiFiError` and `DHCPError`, whose LED statuses are indeed distinct. -/
theorem c5_distinct_status_amended_witness :
    ({ SystemStateMachine.new with
        current_state := SystemState.WiFiError }).get_led_status ≠
      ({ SystemStateMachine.new with
          current_state := SystemState.DHCPError }).get_led_status := by
  intro heq
  have h := (c5_distinct_status_amended SystemState.WiFiError SystemState.DHCPError
      rfl rfl (by decide)).mp heq
  simp at h

/-- Each color contributes exactly 32 pulses (4 channel bytes × 8). -/
theorem color_pulses_length (cs : List RgbwColor) :
    (cs.flatMap fun c => [c.g, c.r, c.b, c.w].flatMap byte_to_pulses).length
      = 32 * cs.length := by
  induction cs with
  | nil => rfl
  | cons c rest ih =>
      show (([c.g, c.r, c.b, c.w].flatMap byte_to_pulses) ++
          (rest.flatMap fun c => [c.g, c.r, c.b, c.w].flatMap byte_to_pulses)).length
        = 32 * (rest.length + 1)
      rw [List.length_append, ih]
      have hb : ∀ b : Nat, (byte_to_pulses b).length = 8 := by
        intro b
        simp [byte_to_pulses]
      show (byte_to_pulses c.g ++ (byte_to_pulses c.r ++ (byte_to_pulses c.b ++
          (byte_to_pulses c.w ++ [])))).length + 32 * rest.length = 32 * (rest.length + 1)
      simp [hb]
      try omega

/-- C7. For every non-empty color sequence, one frame transmission with
the reset pulse enabled consists of exactly 8 × 4 × n + 1 pulses: per
color the four channel bytes in wire order Green, Red, Blue, White, each
expanded to 8 pulses by `byte_to_pulses`, followed by the single
low-level reset/latch pulse. -/
theorem c7_pulse_stream_length (colors : List RgbwColor) (h : colors ≠ []) :
    (send_rgbw_batch colors true).length = 8 * 4 * colors.length + 1 ∧
    send_rgbw_batch colors true =
      (colors.flatMap fun c => [c.g, c.r, c.b, c.w].flatMap byte_to_pulses) ++
        [PulseCode.new Level.Low 2000 Level.Low 0] := by
  constructor
  · show ((colors.flatMap fun c => [c.g, c.r, c.b, c.w].flatMap byte_to_pulses) ++
        [resetPulse]).length = 8 * 4 * colors.length + 1
    rw [List.length_append, color_pulses_length]
    simp
    try omega
  · rfl

/-- C7 witness: the theorem applied to the one-color list. -/
theorem c7_pulse_stream_length_witness :
    (send_rgbw_batch [RgbwColor.new 9 8 7 6] true).length = 8 * 4 * 1 + 1 :=
  (c7_pulse_stream_length [RgbwColor.new 9 8 7 6] (by simp)).1

/-- C8. For every byte value, `byte_to_pulses` yields exactly 8 pulses,
and pulse `i` encodes bit `7 - i` (most-significant bit first): a 1 bit
maps to the fixed pair (High 8, Low 5) and a 0 bit to (High 3, Low 10). -/
theorem c8_byte_to_pulses_msb_first :
    ∀ b : Nat, b < 256 →
      (byte_to_pulses b).length = 8 ∧
      ∀ i : Nat, i < 8 →
        (byte_to_pulses b)[i]? =
          some (if (b >>> (7 - i)) &&& 1 = 1 then
              PulseCode.new Level.High 8 Level.Low 5
            else
              PulseCode.new Level.High 3 Level.Low 10) := by
  set_option maxRecDepth 4096 in decide

/-- C8 witness: the theorem applied to byte 0xB1 = 0b10110001 at pulse
index 0 (bit 7, a 1 bit) and index 1 (bit 6, a 0 bit). -/
theorem c8_byte_to_pulses_msb_first_witness :
    (byte_to_pulses 177).length = 8 ∧
    (byte_to_pulses 177)[0]? = some (PulseCode.new Level.High 8 Level.Low 5) ∧
    (byte_to_pulses 177)[1]? = some (PulseCode.new Level.High 3 Level.Low 10) := by
  refine ⟨(c8_byte_to_pulses_msb_first 177 (by decide)).1, ?_, ?_⟩
  · have h := (c8_byte_to_pulses_msb_first 177 (by decide)).2 0 (by decide)
    simpa using h
  · have h := (c8_byte_to_pulses_msb_first 177 (by decide)).2 1 (by decide)
    simpa using h

/-- C2. From any assembler state in `CollectingFrame` with
`expected_frame_size = 1000`: a single packet of 60 colors at offset 0
completes the frame, one of 30 colors does not, and in general a call
that returns without error ends in `FrameComplete` exactly when the
final received count has reached `min 60 expected_frame_size`. -/
theorem c2_completion_threshold (s : LedControllerState)
    (hc : s.frame_state = FrameState.CollectingFrame)
    (he : s.expected_frame_size = 1000) :
    (∀ cs : List RgbwColor, cs.length = 60 →
        (handle_frame_packet s 0 cs).1.frame_state = FrameState.FrameComplete) ∧
    (∀ cs : List RgbwColor, cs.length = 30 →
        (handle_frame_packet s 0 cs).1.frame_state ≠ FrameState.FrameComplete) ∧
    (∀ (offset : Nat) (cs : List RgbwColor),
        (handle_frame_packet s offset cs).2 = none →
        ((handle_frame_packet s offset cs).1.frame_state = FrameState.FrameComplete ↔
          min 60 s.expected_frame_size ≤
            (handle_frame_packet s offset cs).1.received_leds)) := by
  refine ⟨?_, ?_, ?_⟩
  · intro cs h60
    simp [handle_frame_packet_zero, h60, MAX_LEDS]
  · intro cs h30
    simp [handle_frame_packet_zero, h30, MAX_LEDS, he]
  · intro offset cs hnone
    by_cases h0 : offset = 0
    · subst h0
      rw [handle_frame_packet_zero] at hnone ⊢
      rw [he] at hnone ⊢
      split_ifs at hnone ⊢
      all_goals simp
      all_goals omega
    · rw [handle_frame_packet_nonzero s offset cs h0 hc] at hnone ⊢
      rw [he] at hnone ⊢
      split_ifs at hnone ⊢
      all_goals simp
      all_goals omega

/-- C2 witness: the theorem applied to the empty collecting state with
`expected_frame_size = 1000` and packets of 60 and 30 colors. -/
theorem c2_completion_threshold_witness :
    (handle_frame_packet
        { frame_buffer := [], frame_state := FrameState.CollectingFrame,
          expected_frame_size := 1000, received_leds := 0 } 0
        (List.replicate 60 (RgbwColor.new 1 1 1 1))).1.frame_state =
      FrameState.FrameComplete ∧
    (handle_frame_packet
        { frame_buffer := [], frame_state := FrameState.CollectingFrame,
          expected_frame_size := 1000, received_leds := 0 } 0
        (List.replicate 30 (RgbwColor.new 1 1 1 1))).1.frame_state ≠
      FrameState.FrameComplete := by
  have h := c2_completion_threshold
    { frame_buffer := [], frame_state := FrameState.CollectingFrame,
      expected_frame_size := 1000, received_leds := 0 } rfl rfl
  exact ⟨h.1 _ (by rw [List.length_replicate]), h.2.1 _ (by rw [List.length_replicate])⟩

/-- C3 counterexample. The claim says a capacity-exceeding write leaves
the frame buffer exactly as before the call. Refuted: from an empty
buffer in `CollectingFrame`, a 501-color packet at offset 500 (target
1001 > `MAX_LEDS`) returns the capacity error but leaves the buffer
grown to 1000 black slots, not empty. -/
theorem c3_capacity_rollback_counterexample :
    (handle_frame_packet
        { frame_buffer := [], frame_state := FrameState.CollectingFrame,
          expected_frame_size := 1000, received_leds := 0 } 500
        (List.replicate 501 (RgbwColor.new 3 3 3 3))).2 = some BoardError.LedError ∧
    (handle_frame_packet
        { frame_buffer := [], frame_state := FrameState.CollectingFrame,
          expected_frame_size := 1000, received_leds := 0 } 500
        (List.replicate 501 (RgbwColor.new 3 3 3 3))).1.frame_buffer.length = 1000 ∧
    (handle_frame_packet
        { frame_buffer := [], frame_state := FrameState.CollectingFrame,
          expected_frame_size := 1000, received_leds := 0 } 500
        (List.replicate 501 (RgbwColor.new 3 3 3 3))).1.frame_buffer ≠ [] := by
  rw [handle_frame_packet_nonzero _ 500 _ (by decide) rfl]
  rw [if_neg (by simp only [List.length_replicate, List.length_nil]; omega),
    if_neg (by simp only [List.length_replicate]; decide)]
  refine ⟨rfl, ?_, ?_⟩
  · simp only [List.nil_append, List.length_replicate, List.length_nil, Nat.sub_zero]
    rfl
  · intro h
    simp only [List.nil_append] at h
    have hlen := congrArg List.length h
    simp only [List.length_replicate, List.length_nil] at hlen
    exact absurd hlen (by decide)

/-- C3 amended. A write whose growth target `offset + colors.len()`
exceeds `MAX_LEDS` (from a within-capacity buffer in `CollectingFrame`)
returns the capacity error, but the buffer is not restored: the black
padding pushed before the failing push remains, growing the buffer to
exactly `MAX_LEDS` slots (after the offset-0 reset, if any); the
packet's colors are not copied and `received_leds` is not updated. -/
theorem c3_capacity_error_amended (s : LedControllerState) (offset : Nat)
    (cs : List RgbwColor) (hc : s.frame_state = FrameState.CollectingFrame)
    (hlen : s.frame_buffer.length ≤ MAX_LEDS)
    (hov : MAX_LEDS < offset + cs.length) :
    handle_frame_packet s offset cs =
      ({ frame_buffer :=
           (if offset = 0 then [] else s.frame_buffer) ++
             List.replicate
               (MAX_LEDS - (if offset = 0 then [] else s.frame_buffer).length)
               (RgbwColor.new 0 0 0 0)
         frame_state := FrameState.CollectingFrame
         expected_frame_size := s.expected_frame_size
         received_leds := if offset = 0 then 0 else s.received_leds },
        some BoardError.LedError) := by
  rw [handle_frame_packet_eq s offset cs (Or.inr (by simp [hc]))]
  dsimp only
  have hbase : (if offset = 0 then ([] : List RgbwColor) else s.frame_buffer).length
      ≤ MAX_LEDS := by
    split_ifs <;> simp [hlen]
  rw [if_neg (by omega)]
  simp [hc]

/-- C3 witness: the amended theorem applied to an empty buffer in
`CollectingFrame` and a one-color write at offset 1000 (target 1001). -/
theorem c3_capacity_error_amended_witness :
    (handle_frame_packet
        { frame_buffer := [], frame_state := FrameState.CollectingFrame,
          expected_frame_size := 1000, received_leds := 0 } 1000
        [RgbwColor.new 5 5 5 5]).2 = some BoardError.LedError := by
  rw [c3_capacity_error_amended
    { frame_buffer := [], frame_state := FrameState.CollectingFrame,
      expected_frame_size := 1000, received_leds := 0 } 1000
    [RgbwColor.new 5 5 5 5] rfl (by simp) (by simp [MAX_LEDS])]

/-- C6 counterexample. The claim says an offset-0 write always moves
the assembler to `CollectingFrame`. Refuted: a 60-color packet at
offset 0 (from the initial state) ends in `FrameComplete`, because the
packet alone meets the completion threshold. -/
theorem c6_offset0_counterexample :
    (handle_frame_packet LedControllerState.new 0
        (List.replicate 60 (RgbwColor.new 2 2 2 2))).1.frame_state =
      FrameState.FrameComplete ∧
    FrameState.FrameComplete ≠ FrameState.CollectingFrame := by
  constructor
  · rw [handle_frame_packet_zero]
    simp [writeColors_length, LedControllerState.new, MAX_LEDS]
  · decide

/-- C6 amended. An offset-0 write of at most `MAX_LEDS` colors always
resets the frame buffer regardless of prior state — afterwards the
buffer holds exactly `colors.len()` slots and the state is
`CollectingFrame`, except that it is `FrameComplete` when the packet
alone already meets the completion threshold (`≥ 60` colors or
`≥ expected_frame_size`); a non-zero-offset write in `WaitingForFrame`
is ignored with no mutation; in particular sending pixels at offset 50
first (ignored) and then 10 colors at offset 0 leaves a buffer of
length exactly 10 in `CollectingFrame`. -/
theorem c6_offset0_reset_amended (s : LedControllerState) (cs : List RgbwColor) :
    (cs.length ≤ MAX_LEDS →
      (handle_frame_packet s 0 cs).2 = none ∧
      (handle_frame_packet s 0 cs).1.frame_buffer.length = cs.length ∧
      (handle_frame_packet s 0 cs).1.received_leds = cs.length ∧
      (handle_frame_packet s 0 cs).1.frame_state =
        (if 60 ≤ cs.length ∨ s.expected_frame_size ≤ cs.length
         then FrameState.FrameComplete else FrameState.CollectingFrame)) ∧
    (∀ offset : Nat, offset ≠ 0 → s.frame_state = FrameState.WaitingForFrame →
        handle_frame_packet s offset cs = (s, none)) ∧
    ((handle_frame_packet
        (handle_frame_packet LedControllerState.new 50
          (List.replicate 5 (RgbwColor.new 1 1 1 1))).1 0
        (List.replicate 10 (RgbwColor.new 2 2 2 2))).1.frame_buffer.length = 10 ∧
      (handle_frame_packet
        (handle_frame_packet LedControllerState.new 50
          (List.replicate 5 (RgbwColor.new 1 1 1 1))).1 0
        (List.replicate 10 (RgbwColor.new 2 2 2 2))).1.frame_state =
        FrameState.CollectingFrame) := by
  refine ⟨?_, ?_, ?_⟩
  · intro hcap
    rw [handle_frame_packet_zero, if_pos hcap]
    refine ⟨rfl, ?_, rfl, rfl⟩
    simp [writeColors_length]
  · intro offset ho hw
    exact handle_frame_packet_ignored s offset cs hw ho
  · rw [handle_frame_packet_ignored LedControllerState.new 50
      (List.replicate 5 (RgbwColor.new 1 1 1 1)) rfl (by decide)]
    rw [handle_frame_packet_zero]
    constructor
    · simp [writeColors_length, MAX_LEDS]
    · simp [LedControllerState.new, MAX_LEDS]

/-- C6 witness: the amended theorem applied to the initial state and a
10-color offset-0 packet. -/
theorem c6_offset0_reset_amended_witness :
    (handle_frame_packet LedControllerState.new 0
        (List.replicate 10 (RgbwColor.new 7 7 7 7))).1.frame_buffer.length = 10 := by
  have h := (c6_offset0_reset_amended LedControllerState.new
      (List.replicate 10 (RgbwColor.new 7 7 7 7))).1 (by simp [MAX_LEDS])
  exact h.2.1

/-- C4 counterexample. The claim says the wire round trip recovers the
color sequence for both encodings. Refuted for RGBW: three RGBW colors
serialize to 12 data bytes, which the parser reads through the RGB
branch (12 is also a multiple of 3), yielding four 3-byte colors with
zero white instead of the original three 4-byte colors. -/
theorem c4_roundtrip_counterexample :
    parse_packet (serializeRgbw 0
        [RgbwColor.new 1 2 3 4, RgbwColor.new 5 6 7 8, RgbwColor.new 9 10 11 12]) =
      Except.ok { offset := 0,
                  data := [1, 2, 3, 4, 5, 6, 7, 8, 9, 10, 11, 12] } ∧
    parse_colors [1, 2, 3, 4, 5, 6, 7, 8, 9, 10, 11, 12] =
      Except.ok [RgbwColor.new 1 2 3 0, RgbwColor.new 4 5 6 0,
        RgbwColor.new 7 8 9 0, RgbwColor.new 10 11 12 0] ∧
    ([RgbwColor.new 1 2 3 0, RgbwColor.new 4 5 6 0, RgbwColor.new 7 8 9 0,
        RgbwColor.new 10 11 12 0] : List RgbwColor) ≠
      [RgbwColor.new 1 2 3 4, RgbwColor.new 5 6 7 8, RgbwColor.new 9 10 11 12] := by
  refine ⟨rfl, rfl, by decide⟩

/-- C4 amended. The round trip holds for RGB (any non-empty sequence of
at most `MAX_LEDS` pixels, offset below 2^16, white defaulted to 0) and
for RGBW whenever the color count is not a multiple of 3; a count that
is a multiple of 3 makes the payload length a multiple of both 3 and 4,
and the RGB interpretation takes precedence (see the counterexample). -/
theorem c4_roundtrip_amended :
    (∀ (offset : Nat) (pixels : List (Nat × Nat × Nat)),
        offset < 65536 → pixels ≠ [] → pixels.length ≤ MAX_LEDS →
        parse_packet (serializeRgb offset pixels) =
          Except.ok { offset := offset,
                      data := pixels.flatMap fun t => [t.1, t.2.1, t.2.2] } ∧
        parse_colors (pixels.flatMap fun t => [t.1, t.2.1, t.2.2]) =
          Except.ok (pixels.map fun t => RgbwColor.from_rgb t.1 t.2.1 t.2.2)) ∧
    (∀ (offset : Nat) (colors : List RgbwColor),
        offset < 65536 → colors ≠ [] → colors.length ≤ MAX_LEDS →
        colors.length % 3 ≠ 0 →
        parse_packet (serializeRgbw offset colors) =
          Except.ok { offset := offset,
                      data := colors.flatMap fun c => [c.r, c.g, c.b, c.w] } ∧
        parse_colors (colors.flatMap fun c => [c.r, c.g, c.b, c.w]) =
          Except.ok colors) := by
  constructor
  · intro offset pixels hoff _ hcap
    have hdata : (pixels.flatMap fun t => [t.1, t.2.1, t.2.2]).length
        = 3 * pixels.length := flatMap3_length pixels
    constructor
    · rw [serializeRgb, parse_packet_header _ _ _
        (by rw [hdata]; simp only [MAX_PACKET_SIZE]; simp only [MAX_LEDS] at hcap; omega)]
      rw [show offset / 256 * 256 + offset % 256 = offset from by omega]
    · rw [parse_colors, if_pos (by rw [hdata]; omega), chunks3_flatMap]
      rw [pushAll_ok MAX_LEDS _ [] (by simpa using hcap)]
      simp
  · intro offset colors hoff _ hcap h3
    have hdata : (colors.flatMap fun c => [c.r, c.g, c.b, c.w]).length
        = 4 * colors.length := flatMap4_length colors
    constructor
    · rw [serializeRgbw, parse_packet_header _ _ _
        (by rw [hdata]; simp only [MAX_PACKET_SIZE]; simp only [MAX_LEDS] at hcap; omega)]
      rw [show offset / 256 * 256 + offset % 256 = offset from by omega]
    · rw [parse_colors, if_neg (by rw [hdata]; omega), if_pos (by rw [hdata]; omega)]
      rw [chunks4_flatMap_colors]
      rw [pushAll_ok MAX_LEDS _ [] (by simpa using hcap)]
      simp

/-- C4 witness: the amended theorem applied to offset 258 with one RGB
pixel and one RGBW color (count 1, not a multiple of 3). -/
theorem c4_roundtrip_amended_witness :
    (parse_packet (serializeRgb 258 [(1, 2, 3)]) =
        Except.ok { offset := 258, data := [1, 2, 3] } ∧
      parse_colors [1, 2, 3] = Except.ok [RgbwColor.from_rgb 1 2 3]) ∧
    (parse_packet (serializeRgbw 258 [RgbwColor.new 1 2 3 4]) =
        Except.ok { offset := 258, data := [1, 2, 3, 4] } ∧
      parse_colors [1, 2, 3, 4] = Except.ok [RgbwColor.new 1 2 3 4]) :=
  ⟨c4_roundtrip_amended.1 258 [(1, 2, 3)] (by decide) (by decide) (by decide),
    c4_roundtrip_amended.2 258 [RgbwColor.new 1 2 3 4] (by decide) (by decide)
      (by decide) (by decide)⟩

/-- C10 counterexample. The claim says every byte sequence whose length
is a positive multiple of 12 parses through the RGB branch into
`length / 3` colors. Refuted at 3012 bytes: the RGB branch is taken but
`length / 3 = 1004` exceeds `MAX_LEDS = 1000`, so `parse_colors`
returns the capacity error instead of producing colors. -/
theorem c10_rgb_precedence_counterexample :
    (List.replicate 3012 (0 : Nat)).length % 12 = 0 ∧
    0 < (List.replicate 3012 (0 : Nat)).length ∧
    parse_colors (List.replicate 3012 (0 : Nat)) = Except.error BoardError.LedError := by
  refine ⟨by rw [List.length_replicate], by rw [List.length_replicate]; decide, ?_⟩
  rw [parse_colors, if_pos (by rw [List.length_replicate])]
  rw [pushAll_none MAX_LEDS _ []
    (by
      apply List.ne_nil_of_length_pos
      rw [List.length_map, chunks3_length, List.length_replicate]
      decide)
    (by
      rw [List.length_map, chunks3_length, List.length_replicate]
      decide)]

/-- C10 amended. For every byte sequence whose length is a positive
multiple of 12 and for which `length / 3` fits into `MAX_LEDS`, the
parser takes the RGB branch: it returns exactly the `length / 3` colors
read as 3-byte triples, every white channel 0 — never the RGBW reading,
which would give `length / 4` colors. -/
theorem c10_rgb_precedence_amended (data : List Nat)
    (h12 : data.length % 12 = 0) (hpos : 0 < data.length)
    (hcap : data.length / 3 ≤ MAX_LEDS) :
    parse_colors data =
      Except.ok ((chunks3 data).map fun t => RgbwColor.from_rgb t.1 t.2.1 t.2.2) ∧
    ((chunks3 data).map fun t => RgbwColor.from_rgb t.1 t.2.1 t.2.2).length =
      data.length / 3 ∧
    ∀ c ∈ (chunks3 data).map fun t => RgbwColor.from_rgb t.1 t.2.1 t.2.2,
      c.w = 0 := by
  have hlen : ((chunks3 data).map fun t => RgbwColor.from_rgb t.1 t.2.1 t.2.2).length
      = data.length / 3 := by
    rw [List.length_map, chunks3_length]
  refine ⟨?_, hlen, ?_⟩
  · rw [parse_colors, if_pos (by omega)]
    rw [pushAll_ok MAX_LEDS _ [] (by rw [hlen]; simpa using hcap)]
    simp
  · intro c hcm
    rw [List.mem_map] at hcm
    obtain ⟨t, -, rfl⟩ := hcm
    rfl

/-- C10 witness: the amended theorem applied to twelve zero bytes,
which parse as four black RGB colors. -/
theorem c10_rgb_precedence_amended_witness :
    parse_colors (List.replicate 12 (0 : Nat)) =
      Except.ok ((chunks3 (List.replicate 12 (0 : Nat))).map
        fun t => RgbwColor.from_rgb t.1 t.2.1 t.2.2) :=
  (c10_rgb_precedence_amended (List.replicate 12 (0 : Nat))
    (by decide) (by decide) (by decide)).1

/-- C9. From every machine state (arbitrary current state, retry count
and flags), handling `WiFiDisconnected` leaves the machine in
`Reconnecting`: the catch-all transition arm fires for every state, and
`transition_to_state` keeps `Reconnecting` when already there. -/
theorem c9_wifi_disconnected_reconnects (m : SystemStateMachine) :
    (m.handle_event SystemEvent.WiFiDisconnected).1.current_state =
      SystemState.Reconnecting := by
  obtain ⟨cs, ps, t, rc, ec, mr, md⟩ := m
  cases cs <;> rfl

end Board
